import Mathlib

/-
Shallow embedding of the embassy-drv2605l haptic driver (Rust).

Source files embedded:
  src/src/lib.rs        - register map, Mode/MotorType/Library enums, the
                          async Drv2605l driver and its heartbeat module
  src/src/async_i2c.rs  - the async driver (same bodies as lib.rs for the
                          shared operations) plus set_rated_voltage,
                          set_overdrive_voltage, get_device_id, auto_calibrate
  src/src/blocking.rs   - the blocking driver (same transaction bodies, no
                          timed waits; init omits the 2 ms settle delay)
  src/src/heartbeat.rs  - HeartbeatPattern and the blocking/async heartbeat
                          operations

Modelling choices:
  * The I2C bus is an oracle: `failAt n` says whether the n-th bus
    transaction fails with a transport error, `readAt n r` gives the byte a
    read of register `r` returns when it is the n-th transaction.  Writes
    and reads are logged as events; `Timer::after(ms)` is logged as a
    `wait` event (it is not a bus transaction and does not advance the
    transaction index).
  * Register values are ℕ; the Rust `u8`/`u16`/`u32` casts are made
    explicit with `% 256` etc. where the source performs a narrowing cast.
  * Fallible driver methods become values in an Except-over-state monad
    `M`; the Rust `Error<E>` variants map to `Fail.i2c`,
    `Fail.invalidParameter`, `Fail.calibrationFailed`.  A Rust panic
    (division by zero in `play_custom_heartbeat`) is modelled as the
    distinguished outcome `Fail.panickedDivByZero`.
  * The driver struct's `motor_type` field is the `motor` component of the
    state, threaded exactly as `&mut self` is.
-/

namespace Drv

/-- Register addresses from `pub mod registers` in src/src/lib.rs. -/
def STATUS : ℕ := 0x00

def MODE : ℕ := 0x01

def RTP_INPUT : ℕ := 0x02

def LIBRARY_SELECTION : ℕ := 0x03

def WAVEFORM_SEQUENCER_1 : ℕ := 0x04

def GO_REG : ℕ := 0x0C

def RATED_VOLTAGE : ℕ := 0x16

def OVERDRIVE_CLAMP_VOLTAGE : ℕ := 0x17

def FEEDBACK_CONTROL : ℕ := 0x1A

/-- The `Mode` enum of src/src/lib.rs. -/
inductive Mode where
  | internalTrigger
  | externalTriggerEdge
  | externalTriggerLevel
  | pwmOrAnalogInput
  | audioToVibe
  | realTimePlayback
  | diagnostics
  | autoCalibration
deriving DecidableEq, Fintype

/-- The discriminant values of the `Mode` enum (`mode as u8`). -/
def Mode.code : Mode → ℕ
  | .internalTrigger => 0x00
  | .externalTriggerEdge => 0x01
  | .externalTriggerLevel => 0x02
  | .pwmOrAnalogInput => 0x03
  | .audioToVibe => 0x04
  | .realTimePlayback => 0x05
  | .diagnostics => 0x06
  | .autoCalibration => 0x07

/-- The `MotorType` enum of src/src/lib.rs. -/
inductive MotorType where
  | erm
  | lra
deriving DecidableEq

/-- The `Library` enum of src/src/lib.rs. -/
inductive Library where
  | empty
  | libraryA
  | libraryB
  | libraryC
  | libraryD
  | libraryE
  | lra
deriving DecidableEq

/-- The discriminant values of the `Library` enum (`library as u8`). -/
def Library.code : Library → ℕ
  | .empty => 0
  | .libraryA => 1
  | .libraryB => 2
  | .libraryC => 3
  | .libraryD => 4
  | .libraryE => 5
  | .lra => 6

/-- Outcomes of a driver operation: the three `Error<E>` variants of
src/src/lib.rs (the transport error payload is opaque, so `i2c` carries
none), plus `panickedDivByZero` modelling the Rust panic raised by
`60000 / bpm` when `bpm = 0`. -/
inductive Fail where
  | i2c
  | invalidParameter
  | calibrationFailed
  | panickedDivByZero
deriving DecidableEq

/-- Observable events of a driver run: an I2C register write
(`i2c.write(ADDR, [reg, val])`), an I2C register read
(`i2c.write_read(ADDR, [reg], buf)` returning `val`), and a timed wait
(`Timer::after(Duration::from_millis(ms))`). -/
inductive Event where
  | writeReg (reg val : ℕ)
  | readReg (reg val : ℕ)
  | wait (ms : ℕ)
deriving DecidableEq

/-- Oracle model of the I2C bus: `failAt n` tells whether the n-th bus
transaction reports a transport error, `readAt n r` the byte returned when
the n-th transaction is a read of register `r`. -/
structure Bus where
  failAt : ℕ → Bool
  readAt : ℕ → ℕ → ℕ

/-- Driver-side state: the cached `motor_type` field of the `Drv2605l`
struct, the number of bus transactions issued so far, and the event log. -/
structure St where
  motor : MotorType
  idx : ℕ
  log : List Event
deriving DecidableEq

/-- The driver monad: a fallible state transformer over `St`, reading the
bus oracle.  Mirrors a Rust `fn(&mut self) -> Result<α, Error<E>>`. -/
def M (α : Type) : Type := Bus → St → Except Fail α × St

instance : Monad M where
  pure a := fun _ s => (.ok a, s)
  bind x f := fun bus s =>
    match x bus s with
    | (.ok a, s') => f a bus s'
    | (.error e, s') => (.error e, s')

/-- Abort with a driver error (Rust `return Err(e)` / `?` propagation). -/
def throwF {α : Type} (e : Fail) : M α := fun _ s => (.error e, s)

/-- `write_register(reg, value)`: one bus transaction; on oracle-determined
failure the error is propagated and nothing is logged. -/
def writeRegister (reg val : ℕ) : M Unit := fun bus s =>
  if bus.failAt s.idx then (.error .i2c, { s with idx := s.idx + 1 })
  else (.ok (), { s with idx := s.idx + 1, log := s.log ++ [.writeReg reg val] })

/-- `read_register(reg)`: one bus transaction returning the oracle's byte. -/
def readRegister (reg : ℕ) : M ℕ := fun bus s =>
  if bus.failAt s.idx then (.error .i2c, { s with idx := s.idx + 1 })
  else
    (.ok (bus.readAt s.idx reg),
     { s with idx := s.idx + 1, log := s.log ++ [.readReg reg (bus.readAt s.idx reg)] })

/-- `Timer::after(Duration::from_millis(ms))`: logged, no bus transaction. -/
def timerAfterMs (ms : ℕ) : M Unit := fun _ s =>
  (.ok (), { s with log := s.log ++ [.wait ms] })

/-- Read the driver's cached `motor_type` field. -/
def getMotor : M MotorType := fun _ s => (.ok s.motor, s)

/-- Assign the driver's cached `motor_type` field (`self.motor_type = mt`). -/
def setMotor (mt : MotorType) : M Unit := fun _ s => (.ok (), { s with motor := mt })

/-! ## The async driver (src/src/lib.rs `impl Drv2605l` and
src/src/async_i2c.rs, whose shared method bodies are identical). -/

namespace Async

/-- `reset()`: write 0x80 to the mode register. -/
def reset : M Unit := writeRegister MODE 0x80

/-- `exit_standby()`: write 0x00 to the mode register. -/
def exitStandby : M Unit := writeRegister MODE 0x00

/-- `enter_standby()`: write 0x40 to the mode register. -/
def enterStandby : M Unit := writeRegister MODE 0x40

/-- `set_mode(mode)`: read the mode register, keep the upper five bits,
OR in the mode code, write back. -/
def setMode (m : Mode) : M Unit := do
  let current ← readRegister MODE
  writeRegister MODE ((current &&& 0xF8) ||| m.code)

/-- `set_library(library)`: write the library code to register 0x03. -/
def setLibrary (lib : Library) : M Unit :=
  writeRegister LIBRARY_SELECTION lib.code

/-- `set_motor_type(motor_type)`: cache the new motor type, then write the
feedback-control register and the library-selection register. -/
def setMotorType (mt : MotorType) : M Unit := do
  setMotor mt
  match mt with
  | .lra => do
      writeRegister FEEDBACK_CONTROL 0x80
      setLibrary .lra
  | .erm => do
      writeRegister FEEDBACK_CONTROL 0x00
      setLibrary .libraryB

/-- `init()` (async variant): reset, 2 ms settle delay, exit standby, then
feedback/library configuration chosen by the cached motor type. -/
def init : M Unit := do
  reset
  timerAfterMs 2
  exitStandby
  let mt ← getMotor
  if mt = .lra then do
    writeRegister FEEDBACK_CONTROL 0x80
    setLibrary .lra
  else do
    writeRegister FEEDBACK_CONTROL 0x00
    setLibrary .libraryB

/-- `go()`: write 0x01 to the GO register. -/
def go : M Unit := writeRegister GO_REG 0x01

/-- `stop()`: write 0x00 to the GO register. -/
def stop : M Unit := writeRegister GO_REG 0x00

/-- `is_playing()`: read the GO register, test bit 0. -/
def isPlaying : M Bool := do
  let g ← readRegister GO_REG
  pure (g &&& 0x01 != 0)

/-- `set_waveform(slot, effect)`: reject slots above 7 before any
transaction, otherwise write to `WAVEFORM_SEQUENCER_1 + slot` (a `u8`
addition, hence the `% 256`). -/
def setWaveform (slot effect : ℕ) : M Unit :=
  if slot > 7 then throwF .invalidParameter
  else writeRegister ((WAVEFORM_SEQUENCER_1 + slot) % 256) effect

/-- `clear_waveform_sequence()`: `for i in 0..8 { set_waveform(i, 0)? }`. -/
def clearWaveformSequence : M Unit :=
  (List.range 8).forM (fun i => setWaveform i 0)

/-- `play_waveform(effect)`: internal-trigger mode, clear the sequence,
slot 0 gets the effect, slot 1 the terminator, then GO. -/
def playWaveform (effect : ℕ) : M Unit := do
  setMode .internalTrigger
  clearWaveformSequence
  setWaveform 0 effect
  setWaveform 1 0
  go

/-- `set_rtp_input(value)`: write to the RTP input register. -/
def setRtpInput (v : ℕ) : M Unit := writeRegister RTP_INPUT v

/-- `play_rtp(value)`: real-time-playback mode, then the RTP input write. -/
def playRtp (v : ℕ) : M Unit := do
  setMode .realTimePlayback
  setRtpInput v

/-- `set_rated_voltage(mv)` (src/src/async_i2c.rs): the `u32` product
`mv * 255` never overflows for a `u16` input, the division truncates, and
the `as u8` cast reduces the quotient modulo 256. -/
def setRatedVoltage (mv : ℕ) : M Unit :=
  writeRegister RATED_VOLTAGE (mv * 255 / 5600 % 256)

/-- `set_overdrive_voltage(mv)` (src/src/async_i2c.rs). -/
def setOverdriveVoltage (mv : ℕ) : M Unit :=
  writeRegister OVERDRIVE_CLAMP_VOLTAGE (mv * 255 / 5600 % 256)

/-- `get_device_id()` (src/src/async_i2c.rs): bits 5..7 of the status
register. -/
def getDeviceId : M ℕ := do
  let status ← readRegister STATUS
  pure ((status >>> 5) &&& 0x07)

/-- The `while self.is_playing().await? && timeout > 0` loop of
`auto_calibrate` (src/src/async_i2c.rs), indexed by the remaining
`timeout` budget; returns the final value of `timeout`.  The left operand
`is_playing()` is evaluated (and its transport error propagated) on every
iteration of the condition, including the one where `timeout` is already
0. -/
def autoCalLoop : ℕ → M ℕ
  | 0 => do
      let _ ← isPlaying
      pure 0
  | t + 1 => do
      let p ← isPlaying
      if p then do
        timerAfterMs 10
        autoCalLoop t
      else pure (t + 1)

/-- The tail of `auto_calibrate` after the polling loop: fail if the
budget was exhausted, otherwise read the status register and fail if the
diagnostic bit (0x08) is set. -/
def autoCalFinish (timeout : ℕ) : M Unit :=
  if timeout = 0 then throwF .calibrationFailed
  else do
    let status ← readRegister STATUS
    if status &&& 0x08 != 0 then throwF .calibrationFailed
    else pure ()

/-- `auto_calibrate()` (src/src/async_i2c.rs): auto-calibration mode, GO,
poll until GO clears or the budget of 100 is exhausted, then check the
diagnostic bit of the status register. -/
def autoCalibrate : M Unit := do
  setMode .autoCalibration
  go
  let timeout ← autoCalLoop 100
  autoCalFinish timeout

end Async

/-! ## Exact model of the `f32` arithmetic in `play_custom_heartbeat`.

The source computes `systole_ms = (cycle_ms as f32 * 0.4) as u64` with
`cycle_ms = 60000 / bpm ≤ 60000 < 2^24`, so the `u64 → f32` conversion is
exact.  The `f32` literal `0.4` is the nearest single-precision float to
0.4, namely 13421773 / 2^25 (bit pattern 0x3ECCCCCD).  The product is
rounded to 24 significand bits, round-to-nearest ties-to-even (IEEE-754
default); for the range involved the result is a normal, non-overflowing
float.  `as u64` truncates toward zero.  The model below implements
exactly that on ℕ, representing the rounded product as an integer
numerator over 2^25. -/

/-- Number of bits of `n` (0 for 0), fuel-based so that it reduces by
kernel evaluation; 64 bits of fuel covers every value arising here. -/
def bitlenAux : ℕ → ℕ → ℕ
  | 0, _ => 0
  | fuel + 1, n => if n = 0 then 0 else bitlenAux fuel (n / 2) + 1

/-- Number of bits of `n`. -/
def bitlen (n : ℕ) : ℕ := bitlenAux 64 n

/-- Round `n / 2^k` to the nearest integer, ties to even. -/
def rne (n k : ℕ) : ℕ :=
  if k = 0 then n
  else
    let q := n / 2 ^ k
    let r := n % 2 ^ k
    let half := 2 ^ (k - 1)
    if half < r then q + 1
    else if r < half then q
    else if q % 2 = 0 then q else q + 1

/-- The integer significand of the `f32` literal `0.4`:
`0.4f32 = 13421773 / 2^25`. -/
def f32sig04 : ℕ := 13421773

/-- `x as f32 * 0.4f32` computed in `f32` arithmetic, returned as an
integer numerator over 2^25 (exact for the inputs in range, `x < 2^24`):
the exact product `x * 13421773 / 2^25` is rounded to 24 significand
bits, ties to even. -/
def f32mulPoint4Num (x : ℕ) : ℕ :=
  let n := x * f32sig04
  let b := bitlen n
  if b ≤ 24 then n else rne n (b - 24) * 2 ^ (b - 24)

/-- `(cycle_ms as f32 * 0.4) as u64` of src/src/heartbeat.rs: the `f32`
product truncated toward zero. -/
def systoleMs (cycle : ℕ) : ℕ := f32mulPoint4Num cycle / 2 ^ 25

/-- `HeartbeatPattern` (src/src/heartbeat.rs): bpm and the two systolic
amplitudes, all `u8`. -/
structure HeartbeatPattern where
  bpm : ℕ
  s1Amplitude : ℕ
  s2Amplitude : ℕ

/-- `HeartbeatPattern::default()`: 70 bpm, amplitudes 0x60 and 0x38. -/
def defaultPattern : HeartbeatPattern := ⟨70, 0x60, 0x38⟩

namespace Async

/-- `play_heartbeat_builtin` (src/src/heartbeat.rs, async module; the same
body appears in the heartbeat module of src/src/lib.rs):
Effect::StrongClick100 is 1, Effect::StrongClick60 is 2. -/
def playHeartbeatBuiltin : M Unit := do
  setMode .internalTrigger
  clearWaveformSequence
  setWaveform 0 1
  setWaveform 1 0x81
  setWaveform 2 2
  setWaveform 3 0xB4
  setWaveform 4 0
  go

/-- `play_double_click_heartbeat` (src/src/heartbeat.rs, async module):
Effect::DoubleClick100 is 10. -/
def playDoubleClickHeartbeat : M Unit := playWaveform 10

/-- One iteration of the infinite `loop` body of `play_custom_heartbeat`
(src/src/heartbeat.rs, async module), given the precomputed systole and
diastole durations.  The subtractions are `u64` subtractions; ℕ
subtraction agrees with them whenever `systole ≥ 80` and `diastole ≥ 40`,
which is proved below for every accepted bpm. -/
def heartbeatCycle (p : HeartbeatPattern) (systole diastole : ℕ) : M Unit := do
  setRtpInput p.s1Amplitude
  timerAfterMs 50
  setRtpInput (p.s1Amplitude / 2)
  timerAfterMs 30
  setRtpInput 0
  timerAfterMs (systole - 80)
  setRtpInput p.s2Amplitude
  timerAfterMs 40
  setRtpInput 0
  timerAfterMs (diastole - 40)

/-- `play_custom_heartbeat(pattern)` (src/src/heartbeat.rs, async module;
the identical body also sits in the heartbeat module of src/src/lib.rs):
switch to real-time playback, derive the cycle timing, then loop.  The
Rust `loop` never exits; the model unrolls `fuel` iterations of its body
(every claim about the loop is about a finite prefix of its event
stream).  The Rust expression `60000 / pattern.bpm as u64` panics when
`bpm = 0`; the model returns `Fail.panickedDivByZero` at exactly that
point. -/
def playCustomHeartbeat (p : HeartbeatPattern) (fuel : ℕ) : M Unit := do
  setMode .realTimePlayback
  if p.bpm = 0 then throwF .panickedDivByZero
  else
    let cycle := 60000 / p.bpm
    let systole := systoleMs cycle
    let diastole := cycle - systole
    (List.range fuel).forM (fun _ => heartbeatCycle p systole diastole)

end Async

/-! ## The blocking driver (src/src/blocking.rs and the blocking module of
src/src/heartbeat.rs).  The source duplicates the whole protocol for the
blocking strategy; the embedding therefore duplicates the definitions so
that the equivalence of the two strategies is a theorem about two
independent translations, not true by construction. -/

namespace Blocking

/-- `reset()` (src/src/blocking.rs). -/
def reset : M Unit := writeRegister MODE 0x80

/-- `exit_standby()` (src/src/blocking.rs). -/
def exitStandby : M Unit := writeRegister MODE 0x00

/-- `enter_standby()` (src/src/blocking.rs). -/
def enterStandby : M Unit := writeRegister MODE 0x40

/-- `set_mode(mode)` (src/src/blocking.rs). -/
def setMode (m : Mode) : M Unit := do
  let current ← readRegister MODE
  writeRegister MODE ((current &&& 0xF8) ||| m.code)

/-- `set_library(library)` (src/src/blocking.rs). -/
def setLibrary (lib : Library) : M Unit :=
  writeRegister LIBRARY_SELECTION lib.code

/-- `set_motor_type(motor_type)` (src/src/blocking.rs). -/
def setMotorType (mt : MotorType) : M Unit := do
  setMotor mt
  match mt with
  | .lra => do
      writeRegister FEEDBACK_CONTROL 0x80
      setLibrary .lra
  | .erm => do
      writeRegister FEEDBACK_CONTROL 0x00
      setLibrary .libraryB

/-- `init()` (src/src/blocking.rs): unlike the async variant there is no
settle wait after reset — the source comment says the user must handle
the 2 ms delay externally. -/
def init : M Unit := do
  reset
  exitStandby
  let mt ← getMotor
  if mt = .lra then do
    writeRegister FEEDBACK_CONTROL 0x80
    setLibrary .lra
  else do
    writeRegister FEEDBACK_CONTROL 0x00
    setLibrary .libraryB

/-- `go()` (src/src/blocking.rs). -/
def go : M Unit := writeRegister GO_REG 0x01

/-- `stop()` (src/src/blocking.rs). -/
def stop : M Unit := writeRegister GO_REG 0x00

/-- `is_playing()` (src/src/blocking.rs). -/
def isPlaying : M Bool := do
  let g ← readRegister GO_REG
  pure (g &&& 0x01 != 0)

/-- `set_waveform(slot, effect)` (src/src/blocking.rs). -/
def setWaveform (slot effect : ℕ) : M Unit :=
  if slot > 7 then throwF .invalidParameter
  else writeRegister ((WAVEFORM_SEQUENCER_1 + slot) % 256) effect

/-- `clear_waveform_sequence()` (src/src/blocking.rs). -/
def clearWaveformSequence : M Unit :=
  (List.range 8).forM (fun i => setWaveform i 0)

/-- `play_waveform(effect)` (src/src/blocking.rs). -/
def playWaveform (effect : ℕ) : M Unit := do
  setMode .internalTrigger
  clearWaveformSequence
  setWaveform 0 effect
  setWaveform 1 0
  go

/-- `set_rtp_input(value)` (src/src/blocking.rs). -/
def setRtpInput (v : ℕ) : M Unit := writeRegister RTP_INPUT v

/-- `play_rtp(value)` (src/src/blocking.rs). -/
def playRtp (v : ℕ) : M Unit := do
  setMode .realTimePlayback
  setRtpInput v

/-- `set_rated_voltage(mv)` (src/src/blocking.rs). -/
def setRatedVoltage (mv : ℕ) : M Unit :=
  writeRegister RATED_VOLTAGE (mv * 255 / 5600 % 256)

/-- `set_overdrive_voltage(mv)` (src/src/blocking.rs). -/
def setOverdriveVoltage (mv : ℕ) : M Unit :=
  writeRegister OVERDRIVE_CLAMP_VOLTAGE (mv * 255 / 5600 % 256)

/-- `get_device_id()` (src/src/blocking.rs). -/
def getDeviceId : M ℕ := do
  let status ← readRegister STATUS
  pure ((status >>> 5) &&& 0x07)

/-- `play_heartbeat_builtin` (src/src/heartbeat.rs, blocking module). -/
def playHeartbeatBuiltin : M Unit := do
  setMode .internalTrigger
  clearWaveformSequence
  setWaveform 0 1
  setWaveform 1 0x81
  setWaveform 2 2
  setWaveform 3 0xB4
  setWaveform 4 0
  go

/-- `play_double_click_heartbeat` (src/src/heartbeat.rs, blocking
module). -/
def playDoubleClickHeartbeat : M Unit := playWaveform 10

/-- `start_custom_heartbeat(pattern)` (src/src/heartbeat.rs, blocking
module): the blocking strategy's custom heartbeat only switches to
real-time playback and writes the first amplitude, then returns. -/
def startCustomHeartbeat (p : HeartbeatPattern) : M Unit := do
  setMode .realTimePlayback
  setRtpInput p.s1Amplitude

end Blocking

/-! ## Helper bus oracles and run helpers. -/

/-- A bus that never fails, with read oracle `f`. -/
def okBus (f : ℕ → ℕ → ℕ) : Bus := ⟨fun _ => false, f⟩

/-- A never-failing bus whose reads return 0 everywhere. -/
def busOk0 : Bus := okBus (fun _ _ => 0)

/-- A never-failing bus whose mode register reads back `v` (other
registers read 0). -/
def modeBus (v : ℕ) : Bus := okBus (fun _ r => if r = MODE then v else 0)

/-- A bus on which every transaction fails. -/
def failAllBus : Bus := ⟨fun _ => true, fun _ _ => 0⟩

/-- A bus on which exactly the second transaction (index 1) fails. -/
def failSecondBus : Bus := ⟨fun n => n == 1, fun _ _ => 0⟩

/-- Fresh driver state with cached motor type `mt`. -/
def st0 (mt : MotorType) : St := ⟨mt, 0, []⟩

/-- Run a driver computation on a bus from a fresh state. -/
def runOn {α : Type} (m : M α) (bus : Bus) (mt : MotorType) :
    Except Fail α × St :=
  m bus (st0 mt)

/-- Whether an event is a bus transaction (not a timed wait). -/
def isTx (e : Event) : Bool :=
  match e with
  | .wait _ => false
  | _ => true

/-- Whether an event is a read of the GO register. -/
def isGoRead (e : Event) : Bool :=
  match e with
  | .readReg r _ => r == GO_REG
  | _ => false

/-- Whether an event is a timed wait. -/
def isWaitEv (e : Event) : Bool :=
  match e with
  | .wait _ => true
  | _ => false

/-- The bus transactions of an event log (waits filtered out). -/
def txOf (l : List Event) : List Event := l.filter isTx

/-- How many reads of the GO register an event log contains. -/
def goReadCount (l : List Event) : ℕ := (l.filter isGoRead).length

/-- How many timed waits an event log contains. -/
def waitCount (l : List Event) : ℕ := (l.filter isWaitEv).length

/-- A device whose GO bit never clears: every read of the GO register
returns 1 (other registers read 0); the transport never fails. -/
def neverClearBus : Bus := okBus (fun _ r => if r = GO_REG then 1 else 0)

/-- A device whose GO bit clears after 3 polls: in `auto_calibrate` the GO
reads are transactions 3, 4, 5, 6, ..., so the first three polls return 1
and the fourth returns 0; the status register (diagnostic bit included)
reads 0; the transport never fails. -/
def clearAfter3Bus : Bus := okBus (fun n r => if r = GO_REG ∧ n ≤ 5 then 1 else 0)

/-- The event trace of the polling loop of `auto_calibrate` against a
device whose GO bit never clears: with budget `t`, the GO register is read
t + 1 times with a 10 ms wait after each of the first t reads. -/
def neverClearTrace : ℕ → List Event
  | 0 => [.readReg GO_REG 1]
  | t + 1 => .readReg GO_REG 1 :: .wait 10 :: neverClearTrace t

/-! ## Theorems. -/

set_option maxRecDepth 8192 in
/-- Bit arithmetic of the read-modify-write in `set_mode`, checked for
every byte and every mode. -/
theorem upperMask_lor_mode_bits :
    ∀ v : Fin 256, ∀ m : Mode,
      ((v.val &&& 0xF8) ||| m.code) / 8 = v.val / 8 ∧
      ((v.val &&& 0xF8) ||| m.code) % 8 = m.code := by decide

/-- Claim C1: for every initial mode-register byte `v` and every mode `m`,
`set_mode(m)` reads the mode register once and writes back a byte whose
upper 5 bits equal those of `v` and whose low 3 bits are `m`'s code; no
other register is touched (the log holds exactly that read and that
write). -/
theorem setMode_preserves_upper_bits (m : Mode) (v : ℕ) (hv : v < 256) :
    runOn (Async.setMode m) (modeBus v) .lra =
      (.ok (), ⟨.lra, 2, [.readReg MODE v, .writeReg MODE ((v &&& 0xF8) ||| m.code)]⟩) ∧
    ((v &&& 0xF8) ||| m.code) / 8 = v / 8 ∧
    ((v &&& 0xF8) ||| m.code) % 8 = m.code :=
  ⟨rfl, upperMask_lor_mode_bits ⟨v, hv⟩ m⟩

/-- Running a bind when the first computation is known to succeed. -/
theorem bind_run {α β : Type} (x : M α) (f : α → M β) (bus : Bus) (s : St)
    (a : α) (s' : St) (h : x bus s = (.ok a, s')) :
    (x >>= f) bus s = f a bus s' := by
  show (match x bus s with
        | (.ok a, s') => f a bus s'
        | (.error e, s') => (.error e, s')) = f a bus s'
  rw [h]

theorem autoCalLoop_neverClear (t : ℕ) (s : St) :
    Async.autoCalLoop t neverClearBus s =
      (.ok 0, ⟨s.motor, s.idx + t + 1, s.log ++ neverClearTrace t⟩) := by
  induction t generalizing s with
  | zero => with_unfolding_all rfl
  | succ t ih =>
      have h0 : Async.isPlaying neverClearBus s =
          (.ok true, ⟨s.motor, s.idx + 1, s.log ++ [.readReg GO_REG 1]⟩) := by
        with_unfolding_all rfl
      have h1 : timerAfterMs 10 neverClearBus
          ⟨s.motor, s.idx + 1, s.log ++ [.readReg GO_REG 1]⟩ =
          (.ok (), ⟨s.motor, s.idx + 1,
            (s.log ++ [.readReg GO_REG 1]) ++ [.wait 10]⟩) := rfl
      simp only [Async.autoCalLoop]
      refine (bind_run _ _ _ _ _ _ h0).trans ?_
      refine (bind_run _ _ _ _ _ _ h1).trans ?_
      rw [ih]
      show (Except.ok 0, St.mk s.motor (s.idx + 1 + t + 1)
          (((s.log ++ [Event.readReg GO_REG 1]) ++ [Event.wait 10]) ++ neverClearTrace t)) =
        (Except.ok 0, St.mk s.motor (s.idx + (t + 1) + 1)
          (s.log ++ (Event.readReg GO_REG 1 :: Event.wait 10 :: neverClearTrace t)))
      have hidx : s.idx + 1 + t + 1 = s.idx + (t + 1) + 1 := by omega
      rw [hidx]
      simp [List.append_assoc]

theorem goReadCount_neverClearTrace (t : ℕ) :
    goReadCount (neverClearTrace t) = t + 1 := by
  induction t with
  | zero => rfl
  | succ t ih =>
      simp only [neverClearTrace, goReadCount, List.filter] at ih ⊢
      simp only [isGoRead, isWaitEv] at ih ⊢
      simpa using ih

theorem waits_neverClearTrace (t : ℕ) :
    (neverClearTrace t).filter isWaitEv = List.replicate t (Event.wait 10) := by
  induction t with
  | zero => rfl
  | succ t ih =>
      simp only [neverClearTrace, List.filter, isWaitEv] at ih ⊢
      simpa [List.replicate_succ] using ih

/-- Full run of `auto_calibrate` against the never-clearing device. -/
theorem autoCalibrate_neverClear_run :
    runOn Async.autoCalibrate neverClearBus .lra =
      (.error .calibrationFailed,
       ⟨.lra, 104, .readReg MODE 0 :: .writeReg MODE 7 :: .writeReg GO_REG 1 ::
          neverClearTrace 100⟩) := by
  have h1 : Async.setMode .autoCalibration neverClearBus (st0 .lra) =
      (.ok (), ⟨.lra, 2, [.readReg MODE 0, .writeReg MODE 7]⟩) := rfl
  have h2 : Async.go neverClearBus ⟨.lra, 2, [.readReg MODE 0, .writeReg MODE 7]⟩ =
      (.ok (), ⟨.lra, 3, [.readReg MODE 0, .writeReg MODE 7, .writeReg GO_REG 1]⟩) := rfl
  have h3 := autoCalLoop_neverClear 100
      ⟨.lra, 3, [.readReg MODE 0, .writeReg MODE 7, .writeReg GO_REG 1]⟩
  unfold runOn Async.autoCalibrate
  refine (bind_run _ _ _ _ _ _ h1).trans ?_
  refine (bind_run _ _ _ _ _ _ h2).trans ?_
  refine (bind_run _ _ _ _ _ _ h3).trans ?_
  rfl

/-- Claim C2 counterexample: against the never-clearing device,
`auto_calibrate` reads the GO register 101 times, not the 100 the claim
states (the loop condition evaluates `is_playing()` once more after the
budget reaches 0). -/
theorem autoCalibrate_poll_count_ne_100 :
    goReadCount (runOn Async.autoCalibrate neverClearBus .lra).2.log ≠ 100 := by
  rw [autoCalibrate_neverClear_run]
  show goReadCount (neverClearTrace 100) ≠ 100
  rw [goReadCount_neverClearTrace 100]
  omega

/-- Claim C2 (amended): against a device whose GO bit never clears,
`auto_calibrate` terminates, returns CalibrationFailed, and has polled the
GO register exactly 101 times with a 10 ms wait after each of the first
100 polls; against a device whose GO clears after 3 polls and whose status
diagnostic bit (0x08) is unset, it succeeds (reading GO 4 times with 3
waits). -/
theorem autoCalibrate_poll_behavior :
    (runOn Async.autoCalibrate neverClearBus .lra).1 = .error .calibrationFailed ∧
    goReadCount (runOn Async.autoCalibrate neverClearBus .lra).2.log = 101 ∧
    (runOn Async.autoCalibrate neverClearBus .lra).2.log.filter isWaitEv =
      List.replicate 100 (Event.wait 10) ∧
    (runOn Async.autoCalibrate clearAfter3Bus .lra).1 = .ok () ∧
    goReadCount (runOn Async.autoCalibrate clearAfter3Bus .lra).2.log = 4 ∧
    waitCount (runOn Async.autoCalibrate clearAfter3Bus .lra).2.log = 3 := by
  rw [autoCalibrate_neverClear_run]
  refine ⟨rfl, ?_, ?_, ?_, ?_, ?_⟩
  · show goReadCount (neverClearTrace 100) = 101
    exact goReadCount_neverClearTrace 100
  · show (neverClearTrace 100).filter isWaitEv = List.replicate 100 (Event.wait 10)
    exact waits_neverClearTrace 100
  · rfl
  · rfl
  · rfl

/-- Claim C3: for every effect byte `e` and initial mode-register byte
`v`, `play_waveform(e)` issues exactly: the mode read-modify-write to
InternalTrigger (code 0), eight writes of 0 to 0x04..0x0B in increasing
order, slot 0 gets `e`, slot 1 gets 0, then GO gets 1. -/
theorem playWaveform_sequence (e v : ℕ) :
    runOn (Async.playWaveform e) (modeBus v) .lra =
      (.ok (), ⟨.lra, 13,
        [.readReg MODE v, .writeReg MODE ((v &&& 0xF8) ||| 0),
         .writeReg 0x04 0, .writeReg 0x05 0, .writeReg 0x06 0, .writeReg 0x07 0,
         .writeReg 0x08 0, .writeReg 0x09 0, .writeReg 0x0A 0, .writeReg 0x0B 0,
         .writeReg 0x04 e, .writeReg 0x05 0, .writeReg GO_REG 1]⟩) := rfl

/-- Claim C5: `set_motor_type(LRA)` issues exactly the two writes
feedback-control (0x1A) gets 0x80 then library-selection (0x03) gets 6,
and `set_motor_type(ERM)` issues exactly feedback-control gets 0x00 then
library-selection gets 2; nothing else is written, so the two fields are
always updated together. -/
theorem setMotorType_write_pairs :
    runOn (Async.setMotorType .lra) busOk0 .erm =
      (.ok (), ⟨.lra, 2, [.writeReg FEEDBACK_CONTROL 0x80,
                          .writeReg LIBRARY_SELECTION 6]⟩) ∧
    runOn (Async.setMotorType .erm) busOk0 .lra =
      (.ok (), ⟨.erm, 2, [.writeReg FEEDBACK_CONTROL 0x00,
                          .writeReg LIBRARY_SELECTION 2]⟩) :=
  ⟨rfl, rfl⟩

/-- Claim C6: `set_waveform(slot, x)` with slot at least 8 returns
InvalidParameter with an empty transaction log; with slot at most 7 it
writes `x` to register 0x04 + slot. -/
theorem setWaveform_slot_validation (slot x : ℕ) :
    (8 ≤ slot →
      runOn (Async.setWaveform slot x) busOk0 .lra =
        (.error .invalidParameter, st0 .lra)) ∧
    (slot ≤ 7 →
      runOn (Async.setWaveform slot x) busOk0 .lra =
        (.ok (), ⟨.lra, 1, [.writeReg (0x04 + slot) x]⟩)) := by
  constructor
  · intro h
    have h7 : slot > 7 := h
    simp only [runOn, Async.setWaveform, if_pos h7, throwF, st0]
  · intro h
    have h7 : ¬ slot > 7 := by omega
    have hm : (WAVEFORM_SEQUENCER_1 + slot) % 256 = 0x04 + slot := by
      have : WAVEFORM_SEQUENCER_1 + slot < 256 := by
        simp only [WAVEFORM_SEQUENCER_1]; omega
      simpa [WAVEFORM_SEQUENCER_1] using Nat.mod_eq_of_lt this
    simp only [runOn, Async.setWaveform, if_neg h7, hm, writeRegister, busOk0,
      okBus, st0, Bool.false_eq_true, if_false, List.nil_append]

/-- Witness for C6 at the boundary slots 9 (rejected) and 7 (writes to
0x0B). -/
theorem setWaveform_slot_validation_witness :
    runOn (Async.setWaveform 9 5) busOk0 .lra =
      (.error .invalidParameter, st0 .lra) ∧
    runOn (Async.setWaveform 7 5) busOk0 .lra =
      (.ok (), ⟨.lra, 1, [.writeReg 0x0B 5]⟩) :=
  ⟨(setWaveform_slot_validation 9 5).1 (by decide),
   (setWaveform_slot_validation 7 5).2 (by decide)⟩

/-- Witness for C1 at mode register byte 0xAB and mode RealTimePlayback. -/
theorem setMode_preserves_upper_bits_witness :
    runOn (Async.setMode .realTimePlayback) (modeBus 0xAB) .lra =
      (.ok (), ⟨.lra, 2,
        [.readReg MODE 0xAB,
         .writeReg MODE ((0xAB &&& 0xF8) ||| Mode.code .realTimePlayback)]⟩) ∧
    ((0xAB &&& 0xF8) ||| Mode.code .realTimePlayback) / 8 = 0xAB / 8 ∧
    ((0xAB &&& 0xF8) ||| Mode.code .realTimePlayback) % 8 =
      Mode.code .realTimePlayback :=
  setMode_preserves_upper_bits .realTimePlayback 0xAB (by decide)

set_option maxRecDepth 8192 in
/-- For every accepted bpm (1..255, bpm being a `u8` and 0 rejected by the
division), the derived systole exceeds 80 ms and the derived diastole
exceeds 40 ms; checked over all 255 values with the exact `f32`
arithmetic. -/
theorem systole_diastole_bounds :
    ∀ b : Fin 256, 1 ≤ b.val →
      80 < systoleMs (60000 / b.val) ∧
      40 < 60000 / b.val - systoleMs (60000 / b.val) := by
  decide

/-- Claim C4 counterexample: no accepted bpm (1..255) makes
`systole_ms - 80` or `diastole_ms - 40` underflow, nor even violates the
invariants systole_ms above 80 and diastole_ms above 40 — the claimed
underflowing bpm does not exist, because bpm is a `u8` and even at
bpm = 255 the cycle is 235 ms with systole 94 and diastole 141. -/
theorem heartbeat_underflow_impossible :
    ¬ ∃ bpm : ℕ, 1 ≤ bpm ∧ bpm ≤ 255 ∧
      (systoleMs (60000 / bpm) ≤ 80 ∨
       60000 / bpm - systoleMs (60000 / bpm) ≤ 40) := by
  rintro ⟨b, h1, h2, h3⟩
  obtain ⟨hs, hd⟩ := systole_diastole_bounds ⟨b, by omega⟩ h1
  have hs' : 80 < systoleMs (60000 / b) := hs
  have hd' : 40 < 60000 / b - systoleMs (60000 / b) := hd
  rcases h3 with h3 | h3 <;> omega

/-- Claim C4 (amended): for every bpm accepted by `play_custom_heartbeat`
(1..255; 0 panics before any subtraction), the rest-duration arithmetic is
safe: systole_ms is above 80 and diastole_ms above 40, so neither
`systole_ms - 80` nor `diastole_ms - 40` underflows. -/
theorem heartbeat_rest_durations_safe (bpm : ℕ) (h1 : 1 ≤ bpm)
    (h2 : bpm ≤ 255) :
    80 < systoleMs (60000 / bpm) ∧
    40 < 60000 / bpm - systoleMs (60000 / bpm) :=
  systole_diastole_bounds ⟨bpm, by omega⟩ h1

/-- Witness for the amended C4 at the extreme bpm 255 (cycle 235 ms). -/
theorem heartbeat_rest_durations_safe_witness :
    80 < systoleMs (60000 / 255) ∧
    40 < 60000 / 255 - systoleMs (60000 / 255) :=
  heartbeat_rest_durations_safe 255 (by decide) (by decide)

/-- Claim C7 counterexample: `set_rated_voltage(65535)` writes 168, not
`floor(65535 * 255 / 5600) = 2984` — the `as u8` cast reduces the
quotient modulo 256, so the claimed exact-floor behavior fails for large
inputs. -/
theorem setRatedVoltage_truncation_counterexample :
    runOn (Async.setRatedVoltage 65535) busOk0 .lra =
      (.ok (), ⟨.lra, 1, [.writeReg RATED_VOLTAGE 168]⟩) ∧
    65535 * 255 / 5600 = 2984 ∧ (168 : ℕ) ≠ 2984 :=
  ⟨rfl, by decide, by decide⟩

/-- Claim C7 (amended): for every millivolt input, `set_rated_voltage` and
`set_overdrive_voltage` write `floor(mv * 255 / 5600) mod 256` to register
0x16 respectively 0x17 with no range validation; the mod-256 reduction is
the identity for mv up to 5621, and the spec's examples hold: 5600 gives
255, 0 gives 0, 2800 gives 127 (floor of 127.5). -/
theorem setVoltage_formula (mv : ℕ) :
    runOn (Async.setRatedVoltage mv) busOk0 .lra =
      (.ok (), ⟨.lra, 1, [.writeReg RATED_VOLTAGE (mv * 255 / 5600 % 256)]⟩) ∧
    runOn (Async.setOverdriveVoltage mv) busOk0 .lra =
      (.ok (), ⟨.lra, 1,
        [.writeReg OVERDRIVE_CLAMP_VOLTAGE (mv * 255 / 5600 % 256)]⟩) ∧
    (mv ≤ 5621 → mv * 255 / 5600 % 256 = mv * 255 / 5600) ∧
    5600 * 255 / 5600 % 256 = 255 ∧
    0 * 255 / 5600 % 256 = 0 ∧
    2800 * 255 / 5600 % 256 = 127 := by
  refine ⟨rfl, rfl, ?_, by decide, by decide, by decide⟩
  intro h
  have hle : mv * 255 / 5600 ≤ 255 := by
    have hm : mv * 255 ≤ 5621 * 255 := Nat.mul_le_mul_right _ h
    calc mv * 255 / 5600 ≤ 5621 * 255 / 5600 := Nat.div_le_div_right hm
      _ = 255 := by decide
  exact Nat.mod_eq_of_lt (by omega)

/-- Witness for the amended C7 at mv = 2800 (within the faithful range). -/
theorem setVoltage_formula_witness :
    2800 * 255 / 5600 % 256 = 2800 * 255 / 5600 :=
  (setVoltage_formula 2800).2.2.1 (by decide)

/-- Claim C9: with bpm = 0, `play_custom_heartbeat` has already issued
the read-modify-write switching the mode register to RealTimePlayback
(code 5) when it evaluates `60000 / bpm`, which panics; no guard rejects
bpm = 0 first.  The panic is the modelled outcome `panickedDivByZero`,
and the log at that point holds exactly the mode transaction pair. -/
theorem playCustomHeartbeat_bpm_zero (v a1 a2 fuel : ℕ) :
    runOn (Async.playCustomHeartbeat ⟨0, a1, a2⟩ fuel) (modeBus v) .lra =
      (.error .panickedDivByZero,
       ⟨.lra, 2, [.readReg MODE v, .writeReg MODE ((v &&& 0xF8) ||| 5)]⟩) := rfl

/-- Claim C10: `set_motor_type` assigns the cached motor type before
either write, so when the first write fails (all-failing bus) or the
second write fails, the returned driver state already caches the new
motor type, and a subsequent `init` (non-failing bus) configures the
feedback-control and library registers for that new type. -/
theorem setMotorType_caches_before_writes (mt mt0 : MotorType) :
    (runOn (Async.setMotorType mt) failAllBus mt0).1 = .error .i2c ∧
    (runOn (Async.setMotorType mt) failAllBus mt0).2.motor = mt ∧
    (runOn (Async.setMotorType mt) failAllBus mt0).2.log = [] ∧
    (runOn (Async.setMotorType mt) failSecondBus mt0).1 = .error .i2c ∧
    (runOn (Async.setMotorType mt) failSecondBus mt0).2.motor = mt ∧
    (runOn (Async.setMotorType mt) failSecondBus mt0).2.log =
      [.writeReg FEEDBACK_CONTROL
        (match mt with | .lra => 0x80 | .erm => 0x00)] ∧
    runOn Async.init busOk0 mt =
      (.ok (), ⟨mt, 4,
        [.writeReg MODE 0x80, .wait 2, .writeReg MODE 0x00] ++
        (match mt with
         | .lra => [.writeReg FEEDBACK_CONTROL 0x80,
                    .writeReg LIBRARY_SELECTION 6]
         | .erm => [.writeReg FEEDBACK_CONTROL 0x00,
                    .writeReg LIBRARY_SELECTION 2])⟩) := by
  cases mt <;> cases mt0 <;> exact ⟨rfl, rfl, rfl, rfl, rfl, rfl, rfl⟩

/-- Claim C8 counterexample: given the same (default) pattern, the
blocking `start_custom_heartbeat` and the async `play_custom_heartbeat`
do not produce the same register-transaction sequence — the blocking
variant stops after the first amplitude write while the async loop keeps
writing. -/
theorem custom_heartbeat_strategies_differ :
    txOf (runOn (Blocking.startCustomHeartbeat defaultPattern) busOk0 .lra).2.log ≠
    txOf (runOn (Async.playCustomHeartbeat defaultPattern 1) busOk0 .lra).2.log := by
  decide

/-- Claim C8 (amended): every operation implemented by both strategies
issues identical register-transaction sequences.  All shared operations
except `init` are literally the same state function in both strategies;
blocking `init` issues the same transactions as async `init` for every
cached motor type and read oracle (the async variant only adds the 2 ms
settle wait).  The custom-heartbeat operations are the exception the
counterexample exhibits: for every pattern with nonzero bpm, the blocking
`start_custom_heartbeat` transaction sequence is a strict prefix of the
async loop's stream, short by the four further amplitude writes of each
cycle.  (`auto_calibrate` exists only in the async strategy.) -/
theorem strategies_tx_equivalence :
    Blocking.reset = Async.reset ∧
    Blocking.exitStandby = Async.exitStandby ∧
    Blocking.enterStandby = Async.enterStandby ∧
    Blocking.setMode = Async.setMode ∧
    Blocking.setLibrary = Async.setLibrary ∧
    Blocking.setMotorType = Async.setMotorType ∧
    Blocking.go = Async.go ∧
    Blocking.stop = Async.stop ∧
    Blocking.isPlaying = Async.isPlaying ∧
    Blocking.setWaveform = Async.setWaveform ∧
    Blocking.clearWaveformSequence = Async.clearWaveformSequence ∧
    Blocking.playWaveform = Async.playWaveform ∧
    Blocking.setRtpInput = Async.setRtpInput ∧
    Blocking.playRtp = Async.playRtp ∧
    Blocking.setRatedVoltage = Async.setRatedVoltage ∧
    Blocking.setOverdriveVoltage = Async.setOverdriveVoltage ∧
    Blocking.getDeviceId = Async.getDeviceId ∧
    Blocking.playHeartbeatBuiltin = Async.playHeartbeatBuiltin ∧
    Blocking.playDoubleClickHeartbeat = Async.playDoubleClickHeartbeat ∧
    (∀ mt : MotorType, ∀ f : ℕ → ℕ → ℕ,
      txOf (runOn Blocking.init (okBus f) mt).2.log =
        txOf (runOn Async.init (okBus f) mt).2.log) ∧
    (∀ n a1 a2 : ℕ,
      txOf (runOn (Blocking.startCustomHeartbeat ⟨n + 1, a1, a2⟩)
          busOk0 .lra).2.log ++
        [.writeReg RTP_INPUT (a1 / 2), .writeReg RTP_INPUT 0,
         .writeReg RTP_INPUT a2, .writeReg RTP_INPUT 0] =
      txOf (runOn (Async.playCustomHeartbeat ⟨n + 1, a1, a2⟩ 1)
          busOk0 .lra).2.log) := by
  refine ⟨rfl, rfl, rfl, rfl, rfl, rfl, rfl, rfl, rfl, rfl, rfl, rfl, rfl,
    rfl, rfl, rfl, rfl, rfl, rfl, ?_, ?_⟩
  · intro mt f
    cases mt <;> with_unfolding_all rfl
  · intro n a1 a2
    with_unfolding_all rfl

end Drv
